import Mathlib

/-!
Verification of the Cerberus human-verification gateway (crates/fortify and
crates/cerberus-common) against its natural-language specification.

The Rust sources are shallowly embedded: every async store call is modelled
as explicit state passing over association lists keyed by the Redis keys the
code uses (the key prefixes `captcha:`, `passport:`, `circuit:`, `ratelimit:`
put each kind of record in a disjoint keyspace, modelled here as separate
fields of `RedisState`); `chrono::Utc::now()` / `Instant::now()` become
explicit `now` parameters; random values (challenge ids, passport tokens,
answer streams) become explicit inputs; machine integers (`u32`, `u64`,
`i64`) become `Nat`/`Int` (no claim exercises wraparound); JSON
serialisation round-trips (`serde_json::to_string` / `from_str`) are the
identity on the records stored.
-/

namespace Cerberus

/-- `redis.get key` over a store modelled as an association list. -/
def lookupKV {α : Type} : List (String × α) → String → Option α
  | [], _ => none
  | (k, v) :: rest, key => if k = key then some v else lookupKV rest key

/-- `redis.set key v` (also `set_ex`: the TTL argument is tracked separately
where a claim needs it). -/
def setKV {α : Type} : List (String × α) → String → α → List (String × α)
  | [], key, v => [(key, v)]
  | (k, w) :: rest, key, v =>
      if k = key then (key, v) :: rest else (k, w) :: setKV rest key v

/-- `redis.del key`. -/
def delKV {α : Type} : List (String × α) → String → List (String × α)
  | [], _ => []
  | (k, w) :: rest, key =>
      if k = key then delKV rest key else (k, w) :: delKV rest key

/-! ## Data model (crates/cerberus-common/src/types.rs,
crates/fortify/src/captcha/mod.rs) -/

/-- `CaptchaDifficulty` (types.rs). -/
inductive CaptchaDifficulty : Type
  | Easy
  | Medium
  | Hard
  | Extreme
deriving DecidableEq, Repr

/-- `CircuitStatus` (types.rs). -/
inductive CircuitStatus : Type
  | New
  | Verified
  | SoftLocked
  | Banned
  | Vip
deriving DecidableEq, Repr

/-- `CircuitInfo` (types.rs). -/
structure CircuitInfo : Type where
  circuit_id : String
  status : CircuitStatus
  failed_attempts : Nat
  successful_solves : Nat
  first_seen : Int
  last_seen : Int
  passport_token : Option String
  passport_expires : Option Int
deriving DecidableEq, Repr

/-- `CircuitInfo::new` (types.rs), with `chrono::Utc::now()` passed in. -/
def CircuitInfo.mkNew (cid : String) (now : Int) : CircuitInfo :=
  { circuit_id := cid
    status := CircuitStatus.New
    failed_attempts := 0
    successful_solves := 0
    first_seen := now
    last_seen := now
    passport_token := none
    passport_expires := none }

/-- `StoredChallenge` (captcha/mod.rs): the record stored under `captcha:<id>`. -/
structure StoredChallenge : Type where
  answer : String
  circuit_id : Option String
  difficulty : CaptchaDifficulty
  created_at : Int
  expires_at : Int
deriving DecidableEq, Repr

/-- The JSON body stored under `passport:<token>` (verifier.rs, verify). -/
structure PassportRecord : Type where
  circuit_id : Option String
  issued_at : Int
  expires_at : Int
deriving DecidableEq, Repr

/-- `CaptchaResult` (types.rs). -/
structure CaptchaResult : Type where
  success : Bool
  remaining_challenges : Nat
  passport_token : Option String
  error_message : Option String
deriving DecidableEq, Repr

/-- Rate-limit counter at `ratelimit:<circuit>`: the integer value plus the
pending expiry installed by `EXPIRE` (`none` until `EXPIRE` is issued). -/
structure RateEntry : Type where
  count : Nat
  ttl : Option Nat
deriving DecidableEq, Repr

/-- The shared Redis store: one field per key prefix the code uses. -/
structure RedisState : Type where
  captchas : List (String × StoredChallenge)
  passports : List (String × PassportRecord)
  circuits : List (String × CircuitInfo)
  ratelimits : List (String × RateEntry)
deriving DecidableEq, Repr

/-! ## CaptchaVerifier (crates/fortify/src/captcha/verifier.rs) -/

/-- The answer comparison of `CaptchaVerifier::verify`: case-insensitive for
Easy/Medium (`to_uppercase`; answers are ASCII base-36 strings, where
`String.toUpper` agrees with it), exact for Hard/Extreme. -/
def answersMatch (d : CaptchaDifficulty) (user stored : String) : Bool :=
  match d with
  | CaptchaDifficulty.Easy | CaptchaDifficulty.Medium => user.toUpper = stored.toUpper
  | CaptchaDifficulty.Hard | CaptchaDifficulty.Extreme => user = stored

/-- `CaptchaVerifier::verify` (verifier.rs lines 23-127).  `passportTtl` is
`self.passport_ttl`; `now` is `chrono::Utc::now().timestamp()`; `newToken`
is the random token `generate_passport_token` would draw.  The circuit-id
mismatch branch only logs, so it has no effect here. -/
def verify (passportTtl : Nat) (st : RedisState) (challengeId userAnswer : String)
    (circuitId : Option String) (now : Int) (newToken : String) :
    CaptchaResult × RedisState :=
  let stored := lookupKV st.captchas challengeId
  let st1 := { st with captchas := delKV st.captchas challengeId }
  match stored with
  | none =>
      ({ success := false, remaining_challenges := 0, passport_token := none
         error_message := some "Challenge expired or invalid" }, st1)
  | some ch =>
      if ch.expires_at < now then
        ({ success := false, remaining_challenges := 0, passport_token := none
           error_message := some "Challenge expired" }, st1)
      else
        if answersMatch ch.difficulty userAnswer ch.answer then
          let pr : PassportRecord :=
            { circuit_id := circuitId, issued_at := now
              expires_at := now + (passportTtl : Int) }
          ({ success := true, remaining_challenges := 0
             passport_token := some newToken, error_message := none },
           { st1 with passports := setKV st1.passports newToken pr })
        else
          ({ success := false, remaining_challenges := 1, passport_token := none
             error_message := some "Incorrect answer" }, st1)

/-- `CaptchaVerifier::validate_passport` (verifier.rs lines 140-158): an
`EXISTS` check; the TTL "touch" re-installs the key's remaining TTL, which
leaves the store unchanged in this model. -/
def validate_local_passport (st : RedisState) (token : String) : Bool × RedisState :=
  ((lookupKV st.passports token).isSome, st)

/-! ## CircuitTracker (crates/fortify/src/circuits/tracker.rs)

The tracker's config fields mirror `CircuitTracker::new`; the only one the
transition logic reads is `max_failed_attempts`, but the TTL chosen by
`save` is kept as `saveTtl` for fidelity.  `save` itself is `setKV` on the
`circuit:` keyspace. -/

structure TrackerConfig : Type where
  circuit_ttl : Nat
  max_failed_attempts : Nat
  soft_lock_duration : Nat
  ban_duration : Nat
deriving DecidableEq, Repr

/-- The TTL `CircuitTracker::save` passes to `SET EX`, by status. -/
def saveTtl (cfg : TrackerConfig) (info : CircuitInfo) : Nat :=
  match info.status with
  | CircuitStatus.Banned => cfg.ban_duration
  | CircuitStatus.SoftLocked => cfg.soft_lock_duration
  | _ => cfg.circuit_ttl

/-- `CircuitTracker::get_or_create` (tracker.rs lines 35-62): fetch the
record, refresh `last_seen` and save, or create-and-save a `New` record. -/
def get_or_create (st : List (String × CircuitInfo)) (cid : String) (now : Int) :
    CircuitInfo × List (String × CircuitInfo) :=
  match lookupKV st cid with
  | some data =>
      let info := { data with last_seen := now }
      (info, setKV st cid info)
  | none =>
      let info := CircuitInfo.mkNew cid now
      (info, setKV st cid info)

/-- `CircuitTracker::record_failure` (tracker.rs lines 101-124). -/
def record_failure (cfg : TrackerConfig) (st : List (String × CircuitInfo))
    (cid : String) (now : Int) : CircuitInfo × List (String × CircuitInfo) :=
  let r := get_or_create st cid now
  let info1 : CircuitInfo := { r.1 with failed_attempts := r.1.failed_attempts + 1, last_seen := now }
  let info2 :=
    if cfg.max_failed_attempts ≤ info1.failed_attempts then
      { info1 with status := CircuitStatus.SoftLocked }
    else info1
  (info2, setKV r.2 cid info2)

/-- `CircuitTracker::record_success` (tracker.rs lines 127-154). -/
def record_success (st : List (String × CircuitInfo)) (cid : String)
    (passportToken : String) (passportExpires : Int) (now : Int) :
    CircuitInfo × List (String × CircuitInfo) :=
  let r := get_or_create st cid now
  let info1 : CircuitInfo :=
    { r.1 with
      successful_solves := r.1.successful_solves + 1
      status := CircuitStatus.Verified
      passport_token := some passportToken
      passport_expires := some passportExpires
      last_seen := now
      failed_attempts := 0 }
  let info2 :=
    if 5 ≤ info1.successful_solves ∧ info1.status = CircuitStatus.Verified then
      { info1 with status := CircuitStatus.Vip }
    else info1
  (info2, setKV r.2 cid info2)

/-- `CircuitTracker::ban` (tracker.rs lines 157-177). -/
def ban (st : List (String × CircuitInfo)) (cid : String) (now : Int) :
    List (String × CircuitInfo) :=
  let r := get_or_create st cid now
  let info1 : CircuitInfo := { r.1 with status := CircuitStatus.Banned, last_seen := now }
  setKV r.2 cid info1

/-- `CircuitTracker::is_allowed` (tracker.rs lines 180-197). -/
def is_allowed (circuits : List (String × CircuitInfo)) (cid : String) :
    Bool × Option String :=
  match lookupKV circuits cid with
  | some info =>
      match info.status with
      | CircuitStatus.Banned => (false, some "Circuit is banned")
      | CircuitStatus.SoftLocked =>
          (false, some "Too many failed attempts. Try again later.")
      | _ => (true, none)
  | none => (true, none)

/-- `CircuitTracker::check_rate_limit` (tracker.rs lines 200-224): `INCR`
the counter (creating it at 1 with no TTL), issue `EXPIRE 60` when the new
count is 1, allow while `count <= max_requests_per_minute`, remaining is
`max - count` in the allowed branch and `0` otherwise. -/
def check_rate_limit (rl : List (String × RateEntry)) (cid : String)
    (maxRequestsPerMinute : Nat) : Bool × Nat × List (String × RateEntry) :=
  let prev := lookupKV rl cid
  let count := (match prev with | some e => e.count | none => 0) + 1
  let entry : RateEntry :=
    { count := count, ttl := match prev with | some e => e.ttl | none => none }
  let entry2 := if count = 1 then { entry with ttl := some 60 } else entry
  let allowed := decide (count ≤ maxRequestsPerMinute)
  let remaining := if allowed then maxRequestsPerMinute - count else 0
  (allowed, remaining, setKV rl cid entry2)

/-- `record_failure` n times on the same circuit starting from a store, as
the `/verify` endpoint would on n consecutive wrong answers. -/
def iter_failures (cfg : TrackerConfig) (st : List (String × CircuitInfo))
    (cid : String) (now : Int) : Nat → List (String × CircuitInfo)
  | 0 => st
  | n + 1 => (record_failure cfg (iter_failures cfg st cid now n) cid now).2

/-! ## Admission API handlers (crates/fortify/src/routes/passport.rs,
crates/fortify/src/routes/captcha.rs)

Each Redis call in a handler can fail (connection error).  `StoreFaults`
says which of the handler's store calls fails; a failing call produces the
handler's error branch without touching the store. -/

/-- Which store calls of `validate_passport` fail. -/
structure StoreFaults : Type where
  circuitGet : Bool
  rateIncr : Bool
  passportCheck : Bool
deriving DecidableEq, Repr

/-- No store call fails. -/
def noFaults : StoreFaults :=
  { circuitGet := false, rateIncr := false, passportCheck := false }

/-- `validate_passport` (routes/passport.rs lines 29-84), returning the HTTP
status code: 403 when the circuit is denied, 429 when rate-limited, 200/401
by passport existence, and `tracker`/`verifier` store errors mapped by the
handler itself (`StatusCode::INTERNAL_SERVER_ERROR`). -/
def validate_passport (maxRequestsPerMinute : Nat) (f : StoreFaults)
    (st : RedisState) (token : String) (circuitId : Option String) :
    Nat × RedisState :=
  match circuitId with
  | some cid =>
      if f.circuitGet then (500, st)
      else
        match is_allowed st.circuits cid with
        | (false, _) => (403, st)
        | (true, _) =>
            if f.rateIncr then (500, st)
            else
              let r := check_rate_limit st.ratelimits cid maxRequestsPerMinute
              let st1 := { st with ratelimits := r.2.2 }
              if r.1 = false then (429, st1)
              else if f.passportCheck then (500, st1)
              else
                let v := validate_local_passport st1 token
                (if v.1 then 200 else 401, v.2)
  | none =>
      if f.passportCheck then (500, st)
      else
        let v := validate_local_passport st token
        (if v.1 then 200 else 401, v.2)

/-- Iterated `/validate` calls for the same token and circuit (statuses in
call order, final store). -/
def iter_validate (maxRequestsPerMinute : Nat) (st : RedisState)
    (token : String) (circuitId : Option String) : Nat → List Nat × RedisState
  | 0 => ([], st)
  | n + 1 =>
      let r := iter_validate maxRequestsPerMinute st token circuitId n
      let v := validate_passport maxRequestsPerMinute noFaults r.2 token circuitId
      (r.1 ++ [v.1], v.2)

/-- `verify_challenge` (routes/captcha.rs lines 79-132): deny via
`is_allowed` when a circuit id is present (`Err (403, reason)`), otherwise
run the verifier and drive `record_success` / `record_failure`.  The
passport expiry it records is `now + passport_ttl_secs`. -/
def verify_challenge (cfg : TrackerConfig) (passportTtl : Nat) (st : RedisState)
    (challengeId userAnswer : String) (circuitId : Option String) (now : Int)
    (newToken : String) : Except (Nat × String) CaptchaResult × RedisState :=
  match circuitId with
  | some cid =>
      match is_allowed st.circuits cid with
      | (false, reason) =>
          (Except.error (403, match reason with | some r => r | none => "Access denied"), st)
      | (true, _) =>
          let r := verify passportTtl st challengeId userAnswer (some cid) now newToken
          match r.1.success, r.1.passport_token with
          | true, some tok =>
              let rs := record_success r.2.circuits cid tok (now + (passportTtl : Int)) now
              (Except.ok r.1, { r.2 with circuits := rs.2 })
          | true, none => (Except.ok r.1, r.2)
          | false, _ =>
              let rf := record_failure cfg r.2.circuits cid now
              (Except.ok r.1, { r.2 with circuits := rf.2 })
  | none =>
      let r := verify passportTtl st challengeId userAnswer none now newToken
      (Except.ok r.1, r.2)

/-! ## PassportService: cross-node tokens (crates/fortify/src/cluster/passport.rs)

Ed25519 is modelled symbolically: a keypair is a number, `sigOf sk msg` is
the unique signature of `msg` under `sk`, and verification under the
matching public key succeeds exactly on that signature (the code's base64
decoding of `sig_b64` and its 64-byte length check reject exactly the
strings that are no signature at all, so they are folded into `sigVerify`).
`sigOf` writes the message as dot-separated code points, so a signature
never contains `':'` — as in the code, where `sig_b64` is base64url.  The
outer `URL_SAFE_NO_PAD` encoding of the whole token is a bijection onto the
decoded strings, so `mint` and `validate` are modelled on decoded tokens. -/

/-- `str::split(':')` of Rust, embedded structurally: split on every colon,
empty pieces preserved. -/
def splitColonAux : List Char → List Char → List String
  | [], acc => [String.mk acc.reverse]
  | c :: rest, acc =>
      if c = ':' then String.mk acc.reverse :: splitColonAux rest []
      else splitColonAux rest (c :: acc)

/-- The list `token_str.split(':').collect()` produces. -/
def splitColon (s : String) : List String := splitColonAux s.data []

/-- Value of a decimal digit. -/
def digitVal? (c : Char) : Option Nat :=
  if '0' ≤ c ∧ c ≤ '9' then some (c.toNat - 48) else none

def parseNatAux : List Char → Nat → Option Nat
  | [], acc => some acc
  | c :: rest, acc =>
      match digitVal? c with
      | none => none
      | some d => parseNatAux rest (acc * 10 + d)

/-- `str::parse::<u64>()`, embedded structurally: a non-empty all-digit
string (the `+` sign Rust also tolerates and the u64 overflow bound play no
role in any claim). -/
def parseNat? (s : String) : Option Nat :=
  match s.data with
  | [] => none
  | l => parseNatAux l 0

def encChars : List Char → String
  | [] => ""
  | [c] => toString c.toNat
  | c :: rest => toString c.toNat ++ "." ++ encChars rest

/-- Colon-free injective rendering of a string (stands for the signature
bytes over that message). -/
def encStr (s : String) : String := encChars s.data

/-- Symbolic Ed25519 signature of `msg` under private key `sk`. -/
def sigOf (sk : Nat) (msg : String) : String :=
  toString sk ++ "s" ++ encStr msg

/-- Symbolic Ed25519 verification: `pk` is the public key of the keypair
numbered `pk`. -/
def sigVerify (pk : Nat) (msg : String) (sig : String) : Bool :=
  sig = sigOf pk msg

/-- `PassportToken` (cluster/passport.rs): what `validate` returns. -/
structure PassportTokenData : Type where
  target : String
  expiry : Nat
  issuer : String
  circuit_id : Option String
deriving DecidableEq, Repr

/-- `PassportService::mint` (cluster/passport.rs lines 148-177), at the
decoded-token level: `"target:expiry:issuer"` signed by our key. -/
def mint (nodeId : String) (sk : Nat) (tokenTtl : Nat) (targetNode : String)
    (now : Nat) : String :=
  let expiry := now + tokenTtl
  let payload := targetNode ++ ":" ++ toString expiry ++ ":" ++ nodeId
  payload ++ ":" ++ sigOf sk payload

/-- `PassportService::validate` (cluster/passport.rs lines 180-248), at the
decoded-token level: split on `':'` into exactly four parts, parse the
expiry, require `target` to be this node, reject when `expiry < now`, look
the issuer up in the peer-keys map, verify the signature over the rebuilt
payload, and return `{target, expiry, issuer}` (circuit_id is never stored
in the token). -/
def validateToken (nodeId : String) (peerKeys : List (String × Nat)) (now : Nat)
    (tokenStr : String) : Option PassportTokenData :=
  match splitColon tokenStr with
  | [target, expiryStr, issuer, sigStr] =>
      match parseNat? expiryStr with
      | none => none
      | some expiry =>
          if target ≠ nodeId then none
          else if expiry < now then none
          else
            match lookupKV peerKeys issuer with
            | none => none
            | some pk =>
                let payload := target ++ ":" ++ toString expiry ++ ":" ++ issuer
                if sigVerify pk payload sigStr then
                  some { target := target, expiry := expiry, issuer := issuer
                         circuit_id := none }
                else none
  | _ => none

/-! ## GossipService (crates/fortify/src/cluster/gossip.rs)

`Instant` timestamps become `Nat` instants against an explicit `now`
(`elapsed() = now - last_seen`; an `Instant` never lies in the future, which
the reachability relation below guarantees).  The `f32` ratio comparison
`unhealthy_ratio >= isolation_threshold` is modelled over `ℚ`. -/

/-- `GossipPacket` (gossip.rs). -/
structure GossipPacket : Type where
  node_id : String
  cpu_load : Nat
  tor_health : Bool
  active_conns : Nat
  ammo_fill : Nat
  threat_level : Nat
  timestamp : Nat
  version : String
deriving DecidableEq, Repr

/-- `NodeHealth` (gossip.rs). -/
structure NodeHealth : Type where
  last_packet : GossipPacket
  last_seen : Nat
  is_healthy : Bool
deriving DecidableEq, Repr

/-- The state the two gossip tasks share: the peer map and the `isolated`
flag. -/
structure GossipState : Type where
  peers : List (String × NodeHealth)
  isolated : Bool
deriving DecidableEq, Repr

/-- `GossipService::new`: empty peer map, not isolated. -/
def GossipState.init : GossipState := { peers := [], isolated := false }

/-- `GossipService::is_isolated`. -/
def is_isolated (g : GossipState) : Bool := g.isolated

/-- `GossipService::handle_packet` (gossip.rs lines 256-287): drop our own
packets, otherwise upsert the peer as healthy with `last_seen = now` (the
parse-error branch drops the datagram, i.e. leaves the state unchanged). -/
def handle_packet (selfId : String) (g : GossipState) (pkt : GossipPacket)
    (now : Nat) : GossipState :=
  if pkt.node_id = selfId then g
  else
    { g with
      peers := setKV g.peers pkt.node_id
        { last_packet := pkt, last_seen := now, is_healthy := true } }

/-- A peer the health check counts as timed out:
`health.last_seen.elapsed() > timeout`. -/
def staleAt (timeout now : Nat) (h : NodeHealth) : Bool :=
  decide (timeout < now - h.last_seen)

/-- `GossipService::check_peer_health` (gossip.rs lines 290-329): mark every
timed-out peer unhealthy, count them, and when the map is non-empty set
`isolated` to `unhealthy_ratio >= isolation_threshold` (an empty map leaves
the flag as it was). -/
def check_peer_health (timeout : Nat) (threshold : ℚ) (g : GossipState)
    (now : Nat) : GossipState :=
  let peersOut := g.peers.map (fun p =>
    (p.1, if staleAt timeout now p.2 then { p.2 with is_healthy := false } else p.2))
  let totalPeers := g.peers.length
  let unhealthyCount := (g.peers.filter (fun p => staleAt timeout now p.2)).length
  let iso :=
    if 0 < totalPeers then
      decide (threshold ≤ (unhealthyCount : ℚ) / (totalPeers : ℚ))
    else g.isolated
  { peers := peersOut, isolated := iso }

/-- One transition of the gossip receiver task: a datagram arrives, the 1 s
health tick runs, or wall-clock time advances. -/
inductive GossipStep (selfId : String) (timeout : Nat) (threshold : ℚ) :
    GossipState × Nat → GossipState × Nat → Prop
  | recv (g : GossipState) (t : Nat) (pkt : GossipPacket) :
      GossipStep selfId timeout threshold (g, t) (handle_packet selfId g pkt t, t)
  | check (g : GossipState) (t : Nat) :
      GossipStep selfId timeout threshold (g, t) (check_peer_health timeout threshold g t, t)
  | tick (g : GossipState) (t t2 : Nat) (h : t ≤ t2) :
      GossipStep selfId timeout threshold (g, t) (g, t2)

/-- States the receiver task can reach from startup. -/
def GossipReachable (selfId : String) (timeout : Nat) (threshold : ℚ)
    (s : GossipState × Nat) : Prop :=
  Relation.ReflTransGen (GossipStep selfId timeout threshold) (GossipState.init, 0) s

/-- Invariant of the receiver task: no peer lies in the future, and a peer
marked unhealthy has already timed out (it was marked by a past check and
has not been heard from since). -/
def GossipInv (timeout now : Nat) (g : GossipState) : Prop :=
  ∀ p ∈ g.peers, p.2.last_seen ≤ now ∧
    (p.2.is_healthy = false → staleAt timeout now p.2 = true)

/-! ## CaptchaGenerator and the Ammo Box (crates/fortify/src/captcha/generator.rs,
crates/fortify/src/captcha/ammo_box.rs)

`rand::rng()` draws are an explicit stream `rng : List Nat` (each
`random_range(0..36)` reads one element, reduced mod 36).  The SVG builder
(`create_svg_captcha`) lays text out with `f32` positions and random jitter;
its byte content is irrelevant to every claim, so it is abstracted to an
injective placeholder of the answer and difficulty — what matters below is
the provenance of the `(answer, image)` pair, not the image bytes. -/

/-- Answer length per difficulty (generator.rs / ammo_box.rs). -/
def answerLength : CaptchaDifficulty → Nat
  | CaptchaDifficulty.Easy => 4
  | CaptchaDifficulty.Medium => 5
  | CaptchaDifficulty.Hard => 6
  | CaptchaDifficulty.Extreme => 8

/-- One character of a random answer: digit for 0-9, letter for 10-35. -/
def randChar (n : Nat) : Char :=
  let idx := n % 36
  if idx < 10 then Char.ofNat (48 + idx) else Char.ofNat (65 + idx - 10)

/-- The random base-36 answer drawn by `create_placeholder_captcha`. -/
def genAnswer (rng : List Nat) (d : CaptchaDifficulty) : String :=
  String.mk ((List.range (answerLength d)).map (fun i => randChar (rng.getD i 0)))

/-- Stand-in for `create_svg_captcha` wrapped as a data URL (see above). -/
def svgDataUrl (answer : String) (d : CaptchaDifficulty) : String :=
  "data:image/svg+xml;base64,(" ++ answer ++ "," ++ toString (answerLength d) ++ ")"

/-- `create_placeholder_captcha` (generator.rs lines 81-108): a fresh random
answer and its rendered image. -/
def create_placeholder_captcha (rng : List Nat) (d : CaptchaDifficulty) :
    String × String :=
  let answer := genAnswer rng d
  (answer, svgDataUrl answer d)

/-- `get_instructions` (generator.rs lines 169-176). -/
def get_instructions (d : CaptchaDifficulty) : String :=
  match d with
  | CaptchaDifficulty.Easy => "Type the characters shown above"
  | CaptchaDifficulty.Medium => "Type the characters shown above (case insensitive)"
  | CaptchaDifficulty.Hard => "Type the characters exactly as shown"
  | CaptchaDifficulty.Extreme => "Type the characters within 20 seconds"

/-- `CaptchaDifficulty::grid_size` (types.rs). -/
def grid_size (d : CaptchaDifficulty) : Nat × Nat :=
  match d with
  | CaptchaDifficulty.Easy => (2, 2)
  | CaptchaDifficulty.Medium => (3, 3)
  | CaptchaDifficulty.Hard => (4, 4)
  | CaptchaDifficulty.Extreme => (5, 5)

/-- `CaptchaChallenge` (types.rs) as `CaptchaGenerator::generate` fills it. -/
structure CaptchaChallenge : Type where
  challenge_id : String
  image_data : String
  gridSize : Nat × Nat
  instructions : String
  expires_at : Int
deriving DecidableEq, Repr

/-- `PregenCaptcha` (ammo_box.rs). -/
structure PregenCaptcha : Type where
  answer : String
  image_data : String
  difficulty : CaptchaDifficulty
  generated_at : Int
deriving DecidableEq, Repr

/-- The Ammo Box RAM pool and its monotonic counters (ammo_box.rs). -/
structure AmmoState : Type where
  pool : List PregenCaptcha
  served : Nat
  generatedCount : Nat
  pool_misses : Nat
deriving DecidableEq, Repr

/-- `AmmoBox::pop` (ammo_box.rs lines 124-132): dequeue and bump `served`,
or record a `pool_miss`. -/
def ammo_pop (a : AmmoState) : Option PregenCaptcha × AmmoState :=
  match a.pool with
  | [] => (none, { a with pool_misses := a.pool_misses + 1 })
  | c :: rest => (some c, { a with pool := rest, served := a.served + 1 })

/-- `CaptchaGenerator::generate` (generator.rs lines 26-68): a fresh random
challenge id (`newId`), an inline `(answer, image)` pair from
`create_placeholder_captcha`, the pending challenge stored under
`captcha:<id>` with TTL `challenge_ttl_secs`, and the client-facing
challenge (the answer is not returned). -/
def generate (challengeTtl : Nat) (st : RedisState) (circuitId : Option String)
    (d : CaptchaDifficulty) (now : Int) (newId : String) (rng : List Nat) :
    CaptchaChallenge × RedisState :=
  let pair := create_placeholder_captcha rng d
  let expiresAt := now + (challengeTtl : Int)
  let stored : StoredChallenge :=
    { answer := pair.1, circuit_id := circuitId, difficulty := d
      created_at := now, expires_at := expiresAt }
  ({ challenge_id := newId, image_data := pair.2, gridSize := grid_size d
     instructions := get_instructions d, expires_at := expiresAt },
   { st with captchas := setKV st.captchas newId stored })

/-- The whole application state relevant to challenge generation: the shared
store plus the in-process Ammo Box (`AppState`, state.rs). -/
structure SysState : Type where
  redis : RedisState
  ammo : AmmoState
deriving DecidableEq, Repr

/-- Challenge generation as the `/challenge` route performs it
(routes/captcha.rs lines 51-58): it invokes `CaptchaGenerator::generate`,
which runs on the Redis handle alone — the Ammo Box component of the
application state is not consulted. -/
def generate_challenge_sys (challengeTtl : Nat) (s : SysState)
    (circuitId : Option String) (d : CaptchaDifficulty) (now : Int)
    (newId : String) (rng : List Nat) : CaptchaChallenge × SysState :=
  let r := generate challengeTtl s.redis circuitId d now newId rng
  (r.1, { s with redis := r.2 })

/-- Concrete pending challenge for witness statements. -/
def sampleChallenge : StoredChallenge :=
  { answer := "AB", circuit_id := none, difficulty := CaptchaDifficulty.Hard
    created_at := 0, expires_at := 100 }

/-- Concrete store holding `sampleChallenge` under id `ch1`. -/
def sampleStore : RedisState :=
  { captchas := [("ch1", sampleChallenge)], passports := [], circuits := []
    ratelimits := [] }

/-- Concrete tracker configuration (the spec's defaults:
`max_failed_attempts` 5). -/
def sampleTrackerConfig : TrackerConfig :=
  { circuit_ttl := 1800, max_failed_attempts := 5, soft_lock_duration := 1800
    ban_duration := 3600 }

/-- Concrete Banned circuit record. -/
def bannedSample : CircuitInfo :=
  { circuit_id := "c9", status := CircuitStatus.Banned, failed_attempts := 0
    successful_solves := 0, first_seen := 0, last_seen := 0
    passport_token := none, passport_expires := none }

/-- The record `n` consecutive `record_failure` calls leave under
`circuit:<cid>` when the circuit was absent at the start. -/
def failRecord (cfg : TrackerConfig) (cid : String) (now : Int) (n : Nat) :
    CircuitInfo :=
  { circuit_id := cid
    status := if cfg.max_failed_attempts ≤ n then CircuitStatus.SoftLocked
              else CircuitStatus.New
    failed_attempts := n
    successful_solves := 0
    first_seen := now
    last_seen := now
    passport_token := none
    passport_expires := none }

/-- The counter value currently stored at `ratelimit:<cid>` (0 when the key
is absent, as `INCR` sees it). -/
def rateCount (rl : List (String × RateEntry)) (cid : String) : Nat :=
  match lookupKV rl cid with
  | some e => e.count
  | none => 0

/-- The empty shared store. -/
def emptyRedis : RedisState :=
  { captchas := [], passports := [], circuits := [], ratelimits := [] }

/-- Concrete pre-generated CAPTCHA sitting in the Ammo Box pool. -/
def samplePregen : PregenCaptcha :=
  { answer := "ZZZZZ", image_data := "img", difficulty := CaptchaDifficulty.Medium
    generated_at := 0 }

/-- Concrete application state whose Ammo Box pool is non-empty. -/
def sampleSys : SysState :=
  { redis := emptyRedis
    ammo := { pool := [samplePregen], served := 0, generatedCount := 0
              pool_misses := 0 } }

/-- Concrete gossip packet from peer `n2`. -/
def samplePacket : GossipPacket :=
  { node_id := "n2", cpu_load := 10, tor_health := true, active_conns := 0
    ammo_fill := 50, threat_level := 5, timestamp := 0, version := "0.1.0" }

/-- Concrete gossip state: one peer last heard from at instant 0. -/
def sampleGossip : GossipState :=
  { peers := [("n2", { last_packet := samplePacket, last_seen := 0
                       is_healthy := true })]
    isolated := false }

/-! ## Theorems -/

theorem lookupKV_setKV_self {α : Type} (st : List (String × α)) (key : String) (v : α) :
    lookupKV (setKV st key v) key = some v := by
  induction st with
  | nil => simp [setKV, lookupKV]
  | cons hd tl ih =>
      obtain ⟨k, w⟩ := hd
      by_cases h : k = key <;> simp [setKV, lookupKV, h, ih]

theorem lookupKV_setKV_other {α : Type} (st : List (String × α)) (key keyB : String)
    (v : α) (h : key ≠ keyB) :
    lookupKV (setKV st key v) keyB = lookupKV st keyB := by
  induction st with
  | nil => simp [setKV, lookupKV, h]
  | cons hd tl ih =>
      obtain ⟨k, w⟩ := hd
      by_cases hk : k = key
      · subst hk
        simp [setKV, lookupKV, h]
      · simp [setKV, lookupKV, hk, ih]

theorem lookupKV_delKV_self {α : Type} (st : List (String × α)) (key : String) :
    lookupKV (delKV st key) key = none := by
  induction st with
  | nil => simp [delKV, lookupKV]
  | cons hd tl ih =>
      obtain ⟨k, w⟩ := hd
      by_cases h : k = key
      · simp [delKV, h, ih]
      · simp [delKV, lookupKV, h, ih]

theorem verify_captchas_deleted (passportTtl : Nat) (st : RedisState)
    (challengeId userAnswer : String) (circuitId : Option String) (now : Int)
    (newToken : String) :
    (verify passportTtl st challengeId userAnswer circuitId now newToken).2.captchas
      = delKV st.captchas challengeId := by
  unfold verify
  cases lookupKV st.captchas challengeId with
  | none => rfl
  | some ch =>
      by_cases h : ch.expires_at < now
      · simp [h]
      · by_cases hm : answersMatch ch.difficulty userAnswer ch.answer <;> simp [h, hm]

theorem verify_missing_challenge (passportTtl : Nat) (st : RedisState)
    (challengeId userAnswer : String) (circuitId : Option String) (now : Int)
    (newToken : String) (habsent : lookupKV st.captchas challengeId = none) :
    (verify passportTtl st challengeId userAnswer circuitId now newToken).1
      = { success := false, remaining_challenges := 0, passport_token := none
          error_message := some "Challenge expired or invalid" } := by
  unfold verify
  rw [habsent]

/-- C1: the pending challenge under `captcha:<id>` is fetched and deleted by
`CaptchaVerifier::verify`, so after a successful verify of a challenge id, a
second verify call for the same id finds no stored challenge and returns
`success = false` with error message "Challenge expired or invalid" — at
most one successful verify per challenge id. -/
theorem captcha_single_use (passportTtl : Nat) (st : RedisState)
    (challengeId answer1 answer2 token1 token2 : String)
    (cid1 cid2 : Option String) (now1 now2 : Int)
    (_hfirst : (verify passportTtl st challengeId answer1 cid1 now1 token1).1.success = true) :
    (verify passportTtl (verify passportTtl st challengeId answer1 cid1 now1 token1).2
        challengeId answer2 cid2 now2 token2).1
      = { success := false, remaining_challenges := 0, passport_token := none
          error_message := some "Challenge expired or invalid" } := by
  apply verify_missing_challenge
  rw [verify_captchas_deleted]
  exact lookupKV_delKV_self st.captchas challengeId

/-- C1 witness: a concrete successful verify followed by a second verify of
the same challenge id, which fails as expired-or-invalid. -/
theorem captcha_single_use_witness :
    (verify 600 sampleStore "ch1" "AB" none 1 "tok1").1.success = true ∧
    (verify 600 (verify 600 sampleStore "ch1" "AB" none 1 "tok1").2
        "ch1" "AB" none 2 "tok2").1
      = { success := false, remaining_challenges := 0, passport_token := none
          error_message := some "Challenge expired or invalid" } :=
  ⟨by decide, captcha_single_use 600 sampleStore "ch1" "AB" "AB" "tok1" "tok2"
      none none 1 2 (by decide)⟩

/-- C10: every completed `CaptchaVerifier::verify` call deletes the stored
challenge key regardless of outcome (wrong answer and expired challenge
included), so after any verify of an existing challenge id a later verify
of the same id — even with the correct answer — returns `success = false`
with "Challenge expired or invalid". -/
theorem verify_consumes_challenge (passportTtl : Nat) (st : RedisState)
    (challengeId answer1 token1 : String) (cid1 : Option String) (now1 : Int) :
    lookupKV (verify passportTtl st challengeId answer1 cid1 now1 token1).2.captchas
        challengeId = none ∧
    ∀ (answer2 token2 : String) (cid2 : Option String) (now2 : Int),
      (verify passportTtl (verify passportTtl st challengeId answer1 cid1 now1 token1).2
          challengeId answer2 cid2 now2 token2).1
        = { success := false, remaining_challenges := 0, passport_token := none
            error_message := some "Challenge expired or invalid" } := by
  have hdel : lookupKV
      (verify passportTtl st challengeId answer1 cid1 now1 token1).2.captchas
      challengeId = none := by
    rw [verify_captchas_deleted]
    exact lookupKV_delKV_self st.captchas challengeId
  refine ⟨hdel, fun answer2 token2 cid2 now2 => ?_⟩
  exact verify_missing_challenge _ _ _ _ _ _ _ hdel

/-- C5: `record_success` increments `successful_solves` by one, resets
`failed_attempts` to 0, attaches the passport token and expiry, saves the
record, and sets the status to Verified — or Vip when the written
`successful_solves` is at least 5. -/
theorem record_success_spec (st : List (String × CircuitInfo)) (cid tok : String)
    (expiresAt now : Int) :
    ((record_success st cid tok expiresAt now).1.successful_solves
        = (match lookupKV st cid with
           | some i => i.successful_solves
           | none => 0) + 1) ∧
    (record_success st cid tok expiresAt now).1.failed_attempts = 0 ∧
    (record_success st cid tok expiresAt now).1.passport_token = some tok ∧
    (record_success st cid tok expiresAt now).1.passport_expires = some expiresAt ∧
    ((record_success st cid tok expiresAt now).1.status
      = if 5 ≤ (record_success st cid tok expiresAt now).1.successful_solves
        then CircuitStatus.Vip else CircuitStatus.Verified) ∧
    lookupKV (record_success st cid tok expiresAt now).2 cid
      = some (record_success st cid tok expiresAt now).1 := by
  cases h : lookupKV st cid with
  | none =>
      norm_num [record_success, get_or_create, h, lookupKV_setKV_self,
        CircuitInfo.mkNew, apply_ite]
  | some i =>
      by_cases h5 : 5 ≤ i.successful_solves + 1 <;>
        simp [record_success, get_or_create, h, lookupKV_setKV_self, h5, apply_ite]

theorem iter_failures_lookup (cfg : TrackerConfig) (st : List (String × CircuitInfo))
    (cid : String) (now : Int) (n : Nat) (h0 : lookupKV st cid = none) :
    lookupKV (iter_failures cfg st cid now (n + 1)) cid
      = some (failRecord cfg cid now (n + 1)) := by
  induction n with
  | zero =>
      simp only [iter_failures, record_failure, get_or_create, h0,
        lookupKV_setKV_self, CircuitInfo.mkNew]
      by_cases h1 : cfg.max_failed_attempts ≤ 0 + 1
      · simp [h1, failRecord]
      · simp [h1, failRecord]
  | succ m ih =>
      have step : iter_failures cfg st cid now (m + 1 + 1)
          = (record_failure cfg (iter_failures cfg st cid now (m + 1)) cid now).2 := rfl
      rw [step]
      simp only [record_failure, get_or_create, ih, lookupKV_setKV_self]
      by_cases hle : cfg.max_failed_attempts ≤ m + 1 + 1
      · by_cases hprev : cfg.max_failed_attempts ≤ m + 1 <;>
          simp [failRecord, hle, hprev]
      · have h2 : ¬ cfg.max_failed_attempts ≤ m + 1 := by omega
        simp [failRecord, hle, h2]

/-- C3: after exactly `max_failed_attempts` calls to `record_failure` on a
circuit that started absent (created New on first failure, no intervening
success), the saved status is SoftLocked and `is_allowed` denies with "Too
many failed attempts. Try again later."; moreover every `record_failure`
call increments `failed_attempts` by exactly one over the fetched record. -/
theorem soft_lock_threshold (cfg : TrackerConfig) (st : List (String × CircuitInfo))
    (cid : String) (now : Int) (h0 : lookupKV st cid = none)
    (hmax : 1 ≤ cfg.max_failed_attempts) :
    (lookupKV (iter_failures cfg st cid now cfg.max_failed_attempts) cid).map
        CircuitInfo.status = some CircuitStatus.SoftLocked ∧
    is_allowed (iter_failures cfg st cid now cfg.max_failed_attempts) cid
      = (false, some "Too many failed attempts. Try again later.") ∧
    ∀ (stB : List (String × CircuitInfo)) (cidB : String) (nowB : Int),
      (record_failure cfg stB cidB nowB).1.failed_attempts
        = (get_or_create stB cidB nowB).1.failed_attempts + 1 := by
  obtain ⟨m, hm⟩ : ∃ m, cfg.max_failed_attempts = m + 1 :=
    ⟨cfg.max_failed_attempts - 1, by omega⟩
  have hlk : lookupKV (iter_failures cfg st cid now cfg.max_failed_attempts) cid
      = some (failRecord cfg cid now cfg.max_failed_attempts) := by
    rw [hm]
    exact iter_failures_lookup cfg st cid now m h0
  have hstat : (failRecord cfg cid now cfg.max_failed_attempts).status
      = CircuitStatus.SoftLocked := by
    simp [failRecord]
  refine ⟨?_, ?_, ?_⟩
  · rw [hlk]
    simp [hstat]
  · unfold is_allowed
    rw [hlk]
    simp [hstat]
  · intro stB cidB nowB
    unfold record_failure
    by_cases hc : cfg.max_failed_attempts
        ≤ (get_or_create stB cidB nowB).1.failed_attempts + 1
    · simp [hc]
    · simp [hc]

/-- C3 witness: with the default `max_failed_attempts = 5`, five failures on
a fresh circuit soft-lock it and the admit check denies. -/
theorem soft_lock_threshold_witness :
    lookupKV ([] : List (String × CircuitInfo)) "c1" = none ∧
    1 ≤ sampleTrackerConfig.max_failed_attempts ∧
    ((lookupKV (iter_failures sampleTrackerConfig [] "c1" 0
          sampleTrackerConfig.max_failed_attempts) "c1").map
        CircuitInfo.status = some CircuitStatus.SoftLocked ∧
    is_allowed (iter_failures sampleTrackerConfig [] "c1" 0
          sampleTrackerConfig.max_failed_attempts) "c1"
      = (false, some "Too many failed attempts. Try again later.") ∧
    ∀ (stB : List (String × CircuitInfo)) (cidB : String) (nowB : Int),
      (record_failure sampleTrackerConfig stB cidB nowB).1.failed_attempts
        = (get_or_create stB cidB nowB).1.failed_attempts + 1) :=
  ⟨rfl, by decide,
   soft_lock_threshold sampleTrackerConfig [] "c1" 0 rfl (by decide)⟩

/-- C4 counterexample: Banned is not terminal at the tracker level — a
`record_success` call on a circuit whose stored status is Banned saves the
record with status Verified, not Banned. -/
theorem banned_not_terminal_cex :
    (record_success [("c9", bannedSample)] "c9" "tok" 50 1).1.status
        = CircuitStatus.Verified ∧
    (lookupKV (record_success [("c9", bannedSample)] "c9" "tok" 50 1).2 "c9").map
        CircuitInfo.status = some CircuitStatus.Verified ∧
    CircuitStatus.Verified ≠ CircuitStatus.Banned := by
  decide

/-- C4 amended: for a circuit whose stored status is Banned, `get_or_create`
and `ban` preserve Banned and no tracker operation returns the stored record
to New; but `record_success` saves Verified (or Vip once the incremented
solves reach 5) and `record_failure` saves SoftLocked once the incremented
`failed_attempts` reaches `max_failed_attempts` (Banned otherwise).  The
`/verify` route never drives `record_success`/`record_failure` on a Banned
circuit, because `is_allowed` rejects it first with 403 "Circuit is banned";
so along the HTTP path only TTL eviction returns the circuit to New. -/
theorem banned_status_transitions (cfg : TrackerConfig)
    (st : List (String × CircuitInfo)) (cid tok : String) (expiresAt now : Int)
    (i : CircuitInfo) (hlk : lookupKV st cid = some i)
    (hban : i.status = CircuitStatus.Banned) :
    (lookupKV (get_or_create st cid now).2 cid).map CircuitInfo.status
        = some CircuitStatus.Banned ∧
    (lookupKV (ban st cid now) cid).map CircuitInfo.status
        = some CircuitStatus.Banned ∧
    (lookupKV (record_failure cfg st cid now).2 cid).map CircuitInfo.status
        = some (if cfg.max_failed_attempts ≤ i.failed_attempts + 1
                then CircuitStatus.SoftLocked else CircuitStatus.Banned) ∧
    (lookupKV (record_success st cid tok expiresAt now).2 cid).map CircuitInfo.status
        = some (if 5 ≤ i.successful_solves + 1
                then CircuitStatus.Vip else CircuitStatus.Verified) ∧
    (lookupKV (record_failure cfg st cid now).2 cid).map CircuitInfo.status
        ≠ some CircuitStatus.New ∧
    (lookupKV (record_success st cid tok expiresAt now).2 cid).map CircuitInfo.status
        ≠ some CircuitStatus.New ∧
    ∀ (rst : RedisState), rst.circuits = st →
      ∀ (passportTtl : Nat) (challengeId userAnswer newToken : String),
        verify_challenge cfg passportTtl rst challengeId userAnswer (some cid)
            now newToken
          = (Except.error (403, "Circuit is banned"), rst) := by
  have hgoc : (lookupKV (get_or_create st cid now).2 cid).map CircuitInfo.status
      = some CircuitStatus.Banned := by
    simp [get_or_create, hlk, lookupKV_setKV_self, hban]
  have hbn : (lookupKV (ban st cid now) cid).map CircuitInfo.status
      = some CircuitStatus.Banned := by
    simp [ban, get_or_create, hlk, lookupKV_setKV_self]
  have hrf : (lookupKV (record_failure cfg st cid now).2 cid).map CircuitInfo.status
      = some (if cfg.max_failed_attempts ≤ i.failed_attempts + 1
              then CircuitStatus.SoftLocked else CircuitStatus.Banned) := by
    by_cases hc : cfg.max_failed_attempts ≤ i.failed_attempts + 1 <;>
      simp [record_failure, get_or_create, hlk, lookupKV_setKV_self, hc, hban]
  have hrs : (lookupKV (record_success st cid tok expiresAt now).2 cid).map
      CircuitInfo.status
      = some (if 5 ≤ i.successful_solves + 1
              then CircuitStatus.Vip else CircuitStatus.Verified) := by
    by_cases hc : 5 ≤ i.successful_solves + 1 <;>
      simp [record_success, get_or_create, hlk, lookupKV_setKV_self, hc]
  refine ⟨hgoc, hbn, hrf, hrs, ?_, ?_, ?_⟩
  · rw [hrf]
    split <;> simp
  · rw [hrs]
    split <;> simp
  · intro rst hcirc passportTtl challengeId userAnswer newToken
    have hia : is_allowed rst.circuits cid = (false, some "Circuit is banned") := by
      rw [hcirc]
      unfold is_allowed
      rw [hlk]
      simp [hban]
    simp only [verify_challenge, hia]

/-- C4 witness: the amended transitions evaluated on a concrete Banned
record. -/
theorem banned_status_transitions_witness :
    lookupKV [("c9", bannedSample)] "c9" = some bannedSample ∧
    bannedSample.status = CircuitStatus.Banned ∧
    ((lookupKV (get_or_create [("c9", bannedSample)] "c9" 1).2 "c9").map
        CircuitInfo.status = some CircuitStatus.Banned ∧
    (lookupKV (ban [("c9", bannedSample)] "c9" 1) "c9").map CircuitInfo.status
        = some CircuitStatus.Banned ∧
    (lookupKV (record_failure sampleTrackerConfig [("c9", bannedSample)] "c9" 1).2
        "c9").map CircuitInfo.status
      = some (if sampleTrackerConfig.max_failed_attempts
                  ≤ bannedSample.failed_attempts + 1
              then CircuitStatus.SoftLocked else CircuitStatus.Banned) ∧
    (lookupKV (record_success [("c9", bannedSample)] "c9" "tok" 50 1).2 "c9").map
        CircuitInfo.status
      = some (if 5 ≤ bannedSample.successful_solves + 1
              then CircuitStatus.Vip else CircuitStatus.Verified) ∧
    (lookupKV (record_failure sampleTrackerConfig [("c9", bannedSample)] "c9" 1).2
        "c9").map CircuitInfo.status ≠ some CircuitStatus.New ∧
    (lookupKV (record_success [("c9", bannedSample)] "c9" "tok" 50 1).2 "c9").map
        CircuitInfo.status ≠ some CircuitStatus.New ∧
    ∀ (rst : RedisState), rst.circuits = [("c9", bannedSample)] →
      ∀ (passportTtl : Nat) (challengeId userAnswer newToken : String),
        verify_challenge sampleTrackerConfig passportTtl rst challengeId userAnswer
            (some "c9") 1 newToken
          = (Except.error (403, "Circuit is banned"), rst)) :=
  ⟨rfl, rfl,
   banned_status_transitions sampleTrackerConfig [("c9", bannedSample)] "c9" "tok"
     50 1 bannedSample rfl rfl⟩

theorem check_rate_limit_spec (rl : List (String × RateEntry)) (cid : String)
    (maxReq : Nat) :
    (check_rate_limit rl cid maxReq).1 = decide (rateCount rl cid + 1 ≤ maxReq) ∧
    (check_rate_limit rl cid maxReq).2.1 = maxReq - (rateCount rl cid + 1) ∧
    (lookupKV (check_rate_limit rl cid maxReq).2.2 cid).map RateEntry.count
      = some (rateCount rl cid + 1) ∧
    (lookupKV rl cid = none →
      lookupKV (check_rate_limit rl cid maxReq).2.2 cid
        = some { count := 1, ttl := some 60 }) := by
  refine ⟨?_, ?_, ?_, ?_⟩
  · cases h : lookupKV rl cid <;> simp [check_rate_limit, rateCount, h]
  · by_cases hle : rateCount rl cid + 1 ≤ maxReq
    · cases h : lookupKV rl cid <;>
        simp_all [check_rate_limit, rateCount]
    · have h0 : maxReq - (rateCount rl cid + 1) = 0 := by omega
      cases h : lookupKV rl cid <;>
        simp_all [check_rate_limit, rateCount]
  · cases h : lookupKV rl cid with
    | none => simp [check_rate_limit, rateCount, h, lookupKV_setKV_self]
    | some e =>
        by_cases h1 : e.count + 1 = 1 <;>
          simp [check_rate_limit, rateCount, h, lookupKV_setKV_self, h1]
  · intro h
    simp [check_rate_limit, rateCount, h, lookupKV_setKV_self]

theorem validate_one (maxReq : Nat) (st2 : RedisState) (token cid : String)
    (hallow : is_allowed st2.circuits cid = (true, none)) :
    (validate_passport maxReq noFaults st2 token (some cid)).1
      = (if rateCount st2.ratelimits cid + 1 ≤ maxReq then
           (if (lookupKV st2.passports token).isSome then 200 else 401)
         else 429) ∧
    (validate_passport maxReq noFaults st2 token (some cid)).2.circuits
      = st2.circuits ∧
    (validate_passport maxReq noFaults st2 token (some cid)).2.passports
      = st2.passports ∧
    (lookupKV (validate_passport maxReq noFaults st2 token (some cid)).2.ratelimits
        cid).map RateEntry.count = some (rateCount st2.ratelimits cid + 1) := by
  obtain ⟨hc1, hc2, hc3, hc4⟩ := check_rate_limit_spec st2.ratelimits cid maxReq
  by_cases hle : rateCount st2.ratelimits cid + 1 ≤ maxReq
  · have hall : (check_rate_limit st2.ratelimits cid maxReq).1 = true := by
      rw [hc1]
      simp [hle]
    cases hlp : lookupKV st2.passports token <;>
      simp [validate_passport, noFaults, hallow, hall, validate_local_passport,
        hle, hc3, hlp, apply_ite]
  · have hall : (check_rate_limit st2.ratelimits cid maxReq).1 = false := by
      rw [hc1]
      simp [hle]
    simp [validate_passport, noFaults, hallow, hall, validate_local_passport, hle,
      hc3]

theorem rateCount_of_map (rl : List (String × RateEntry)) (cid : String) (n : Nat)
    (h : (lookupKV rl cid).map RateEntry.count = some n) : rateCount rl cid = n := by
  cases hl : lookupKV rl cid <;> simp_all [rateCount]

theorem iter_validate_spec (maxReq : Nat) (st : RedisState) (token cid : String)
    (hallow : is_allowed st.circuits cid = (true, none))
    (hfresh : lookupKV st.ratelimits cid = none) (n : Nat) :
    (iter_validate maxReq st token (some cid) n).2.circuits = st.circuits ∧
    (iter_validate maxReq st token (some cid) n).2.passports = st.passports ∧
    rateCount (iter_validate maxReq st token (some cid) n).2.ratelimits cid = n ∧
    (iter_validate maxReq st token (some cid) n).1
      = (List.range n).map (fun k =>
          if k + 1 ≤ maxReq then
            (if (lookupKV st.passports token).isSome then 200 else 401)
          else 429) := by
  induction n with
  | zero =>
      refine ⟨rfl, rfl, ?_, rfl⟩
      simp [iter_validate, rateCount, hfresh]
  | succ m ih =>
      obtain ⟨ihc, ihp, ihr, ihs⟩ := ih
      have hallow2 : is_allowed
          (iter_validate maxReq st token (some cid) m).2.circuits cid
          = (true, none) := by
        rw [ihc]
        exact hallow
      obtain ⟨v1, v2, v3, v4⟩ :=
        validate_one maxReq (iter_validate maxReq st token (some cid) m).2 token cid
          hallow2
      rw [ihr, ihp] at v1
      refine ⟨?_, ?_, ?_, ?_⟩
      · show (validate_passport maxReq noFaults
            (iter_validate maxReq st token (some cid) m).2 token
            (some cid)).2.circuits = st.circuits
        rw [v2, ihc]
      · show (validate_passport maxReq noFaults
            (iter_validate maxReq st token (some cid) m).2 token
            (some cid)).2.passports = st.passports
        rw [v3, ihp]
      · show rateCount (validate_passport maxReq noFaults
            (iter_validate maxReq st token (some cid) m).2 token
            (some cid)).2.ratelimits cid = m + 1
        rw [rateCount_of_map _ _ _ v4, ihr]
      · show (iter_validate maxReq st token (some cid) m).1
            ++ [(validate_passport maxReq noFaults
                  (iter_validate maxReq st token (some cid) m).2 token
                  (some cid)).1]
          = _
        rw [ihs, v1, List.range_succ, List.map_append]
        simp

theorem allowed_window_count (os maxReq : Nat) (hos : os ≠ 429) (n : Nat) :
    (((List.range n).map (fun k => if k + 1 ≤ maxReq then os else 429)).filter
        (fun s => decide (s ≠ 429))).length = min n maxReq := by
  induction n with
  | zero => simp
  | succ m ih =>
      rw [List.range_succ, List.map_append, List.filter_append, List.length_append,
        ih]
      by_cases h : m + 1 ≤ maxReq <;> simp [h, hos] <;> omega

/-- C6: `check_rate_limit` increments the per-circuit counter, installs the
60-second expiry exactly when the counter becomes 1, allows exactly when the
incremented count is at most `max_requests_per_minute`, and returns
`remaining = max - count` (truncated at 0); and over a run of `/validate`
calls within one window for the same admissible circuit, the first `max`
calls pass the rate limiter and every later call returns 429 — so at most
`max` calls are allowed. -/
theorem rate_limit_spec (maxReq n : Nat) (st : RedisState) (token cid : String)
    (hallow : is_allowed st.circuits cid = (true, none))
    (hfresh : lookupKV st.ratelimits cid = none) :
    (∀ (rl : List (String × RateEntry)) (cidB : String),
      (check_rate_limit rl cidB maxReq).1
          = decide (rateCount rl cidB + 1 ≤ maxReq) ∧
      (check_rate_limit rl cidB maxReq).2.1 = maxReq - (rateCount rl cidB + 1) ∧
      (lookupKV (check_rate_limit rl cidB maxReq).2.2 cidB).map RateEntry.count
          = some (rateCount rl cidB + 1) ∧
      (lookupKV rl cidB = none →
        lookupKV (check_rate_limit rl cidB maxReq).2.2 cidB
          = some { count := 1, ttl := some 60 })) ∧
    (iter_validate maxReq st token (some cid) n).1
      = (List.range n).map (fun k =>
          if k + 1 ≤ maxReq then
            (if (lookupKV st.passports token).isSome then 200 else 401)
          else 429) ∧
    ((iter_validate maxReq st token (some cid) n).1.filter
        (fun s => decide (s ≠ 429))).length = min n maxReq := by
  obtain ⟨_, _, _, hs⟩ := iter_validate_spec maxReq st token cid hallow hfresh n
  refine ⟨fun rl cidB => check_rate_limit_spec rl cidB maxReq, hs, ?_⟩
  rw [hs]
  apply allowed_window_count
  cases lookupKV st.passports token <;> simp

/-- C6 witness: three `/validate` calls with `max_requests_per_minute = 2`
on a fresh circuit — the first two pass the rate limiter (401: no passport
stored), the third returns 429. -/
theorem rate_limit_spec_witness :
    is_allowed emptyRedis.circuits "c3" = (true, none) ∧
    lookupKV emptyRedis.ratelimits "c3" = none ∧
    ((∀ (rl : List (String × RateEntry)) (cidB : String),
      (check_rate_limit rl cidB 2).1 = decide (rateCount rl cidB + 1 ≤ 2) ∧
      (check_rate_limit rl cidB 2).2.1 = 2 - (rateCount rl cidB + 1) ∧
      (lookupKV (check_rate_limit rl cidB 2).2.2 cidB).map RateEntry.count
          = some (rateCount rl cidB + 1) ∧
      (lookupKV rl cidB = none →
        lookupKV (check_rate_limit rl cidB 2).2.2 cidB
          = some { count := 1, ttl := some 60 })) ∧
    (iter_validate 2 emptyRedis "t" (some "c3") 3).1
      = (List.range 3).map (fun k =>
          if k + 1 ≤ 2 then
            (if (lookupKV emptyRedis.passports "t").isSome then 200 else 401)
          else 429) ∧
    ((iter_validate 2 emptyRedis "t" (some "c3") 3).1.filter
        (fun s => decide (s ≠ 429))).length = min 3 2) :=
  ⟨rfl, rfl, rate_limit_spec 2 3 emptyRedis "t" "c3" rfl rfl⟩

theorem validate_no_503 (maxReq : Nat) (f : StoreFaults) (st : RedisState)
    (token : String) (cidOpt : Option String) :
    (validate_passport maxReq f st token cidOpt).1 ≠ 503 := by
  unfold validate_passport
  rcases cidOpt with _ | cid
  · by_cases hp : f.passportCheck
    · simp [hp]
    · by_cases hv : (lookupKV st.passports token).isSome <;>
        simp [hp, validate_local_passport, hv]
  · by_cases hc : f.circuitGet
    · simp [hc]
    · rcases hia : is_allowed st.circuits cid with ⟨b, reason⟩
      cases b
      · simp [hc, hia]
      · by_cases hr : f.rateIncr
        · simp [hc, hia, hr]
        · by_cases hall : (check_rate_limit st.ratelimits cid maxReq).1 = false
          · simp [hc, hia, hr, hall]
          · by_cases hp : f.passportCheck
            · simp [hc, hia, hr, hall, hp]
            · by_cases hv : (lookupKV st.passports token).isSome <;>
                simp [hc, hia, hr, hall, hp, validate_local_passport, hv]

/-- C7 counterexample: a store failure during the admissibility check of
`/validate` yields HTTP 500, not the 503 the claim states. -/
theorem validate_store_error_cex :
    (validate_passport 60
        { circuitGet := true, rateIncr := false, passportCheck := false }
        emptyRedis "t" (some "c")).1 = 500 ∧
    (500 : Nat) ≠ 503 := by
  decide

/-- C7 amended: when a shared-store operation fails during `/validate`
(admissibility check, rate-limit check, or passport lookup), the handler
responds with HTTP 500 (`StatusCode::INTERNAL_SERVER_ERROR`); it never
responds 503 — the `CerberusError` Redis-to-503 mapping is not used on this
path. -/
theorem validate_store_error_500 (maxReq : Nat) (st : RedisState)
    (token cid : String) (b2 b3 : Bool) :
    (validate_passport maxReq
        { circuitGet := true, rateIncr := b2, passportCheck := b3 }
        st token (some cid)).1 = 500 ∧
    (is_allowed st.circuits cid = (true, none) →
      (validate_passport maxReq
          { circuitGet := false, rateIncr := true, passportCheck := b3 }
          st token (some cid)).1 = 500) ∧
    (is_allowed st.circuits cid = (true, none) →
      (check_rate_limit st.ratelimits cid maxReq).1 = true →
      (validate_passport maxReq
          { circuitGet := false, rateIncr := false, passportCheck := true }
          st token (some cid)).1 = 500) ∧
    (validate_passport maxReq
        { circuitGet := b2, rateIncr := b3, passportCheck := true }
        st token none).1 = 500 ∧
    ∀ (g : StoreFaults) (cidOpt : Option String),
      (validate_passport maxReq g st token cidOpt).1 ≠ 503 := by
  refine ⟨?_, ?_, ?_, ?_, ?_⟩
  · simp [validate_passport]
  · intro h
    simp [validate_passport, h]
  · intro h hall
    simp [validate_passport, h, hall]
  · simp [validate_passport]
  · intro g cidOpt
    exact validate_no_503 maxReq g st token cidOpt

/-- C8 counterexample: with a non-empty Ammo Box pool, challenge generation
still produces its `(answer, image)` inline — the stored answer is the
freshly generated one, not the pooled one, and the pool (which a pop would
have dequeued, bumping `served`) is untouched. -/
theorem generate_ignores_pool_cex :
    sampleSys.ammo.pool ≠ [] ∧
    (generate_challenge_sys 300 sampleSys none CaptchaDifficulty.Medium 0 "id1"
        [0, 0, 0, 0, 0]).2.ammo = sampleSys.ammo ∧
    (lookupKV (generate_challenge_sys 300 sampleSys none CaptchaDifficulty.Medium
        0 "id1" [0, 0, 0, 0, 0]).2.redis.captchas "id1").map
        StoredChallenge.answer = some "00000" ∧
    samplePregen.answer = "ZZZZZ" ∧
    ("00000" : String) ≠ "ZZZZZ" ∧
    (ammo_pop sampleSys.ammo).1 = some samplePregen := by
  decide

/-- C8 amended: `CaptchaGenerator::generate` never consults the Ammo Box —
the `(answer, image)` pair is always created inline by
`create_placeholder_captcha`, and the pool with its statistics is unchanged
even when non-empty; `AmmoBox::pop` (which dequeues the head and bumps
`served`, or records a `pool_miss` on an empty pool) is exercised only by
the maintenance paths, not by challenge generation. -/
theorem generate_inline_only (challengeTtl : Nat) (s : SysState)
    (circuitId : Option String) (d : CaptchaDifficulty) (now : Int)
    (newId : String) (rng : List Nat) :
    (generate_challenge_sys challengeTtl s circuitId d now newId rng).2.ammo
      = s.ammo ∧
    (generate_challenge_sys challengeTtl s circuitId d now newId rng).1.image_data
      = (create_placeholder_captcha rng d).2 ∧
    lookupKV (generate_challenge_sys challengeTtl s circuitId d now
        newId rng).2.redis.captchas newId
      = some { answer := (create_placeholder_captcha rng d).1
               circuit_id := circuitId, difficulty := d, created_at := now
               expires_at := now + (challengeTtl : Int) } ∧
    (∀ (a : AmmoState) (c : PregenCaptcha) (rest : List PregenCaptcha),
      a.pool = c :: rest →
        ammo_pop a = (some c, { a with pool := rest, served := a.served + 1 })) ∧
    (∀ a : AmmoState, a.pool = [] →
      ammo_pop a = (none, { a with pool_misses := a.pool_misses + 1 })) := by
  refine ⟨rfl, rfl, ?_, ?_, ?_⟩
  · simp [generate_challenge_sys, generate, create_placeholder_captcha,
      lookupKV_setKV_self]
  · intro a c rest h
    simp [ammo_pop, h]
  · intro a h
    simp [ammo_pop, h]

theorem mem_setKV {α : Type} (l : List (String × α)) (k : String) (v : α)
    (p : String × α) (hp : p ∈ setKV l k v) : p ∈ l ∨ p = (k, v) := by
  induction l with
  | nil =>
      simp [setKV] at hp
      right
      exact hp
  | cons hd tl ih =>
      obtain ⟨k2, w⟩ := hd
      by_cases h : k2 = k
      · subst h
        simp [setKV] at hp
        rcases hp with h1 | h1
        · right
          simp [h1]
        · left
          simp [h1]
      · simp [setKV, h] at hp
        rcases hp with h1 | h1
        · left
          simp [h1]
        · rcases ih h1 with h2 | h2
          · left
            simp [h2]
          · right
            exact h2

theorem gossipInv_mono (timeout t t2 : Nat) (g : GossipState)
    (h : GossipInv timeout t g) (hle : t ≤ t2) : GossipInv timeout t2 g := by
  intro p hp
  obtain ⟨h1, h2⟩ := h p hp
  refine ⟨by omega, fun hh => ?_⟩
  have h3 := h2 hh
  simp only [staleAt, decide_eq_true_eq] at h3 ⊢
  omega

theorem gossipStep_inv (selfId : String) (timeout : Nat) (threshold : ℚ)
    (s s2 : GossipState × Nat)
    (hstep : GossipStep selfId timeout threshold s s2)
    (hinv : GossipInv timeout s.2 s.1) : GossipInv timeout s2.2 s2.1 := by
  cases hstep with
  | recv g t pkt =>
      intro p hp
      unfold handle_packet at hp
      by_cases hself : pkt.node_id = selfId
      · rw [if_pos hself] at hp
        exact hinv p hp
      · rw [if_neg hself] at hp
        rcases mem_setKV _ _ _ p hp with h | h
        · exact hinv p h
        · subst h
          exact ⟨le_refl t, by intro hh; simp at hh⟩
  | check g t =>
      intro p hp
      unfold check_peer_health at hp
      simp only [List.mem_map] at hp
      obtain ⟨q, hq, rfl⟩ := hp
      obtain ⟨h1, h2⟩ := hinv q hq
      by_cases hstale : staleAt timeout t q.2 = true
      · have hs2 : timeout < t - q.2.last_seen := by simpa [staleAt] using hstale
        refine ⟨?_, fun _ => ?_⟩
        · simpa [staleAt, hs2] using h1
        · simp [staleAt, hs2]
      · have hb : staleAt timeout t q.2 = false := by
          simpa using hstale
        refine ⟨by simpa [hb] using h1, fun hh => ?_⟩
        rw [hb] at hh ⊢
        simp only [if_false] at hh ⊢
        exact h2 hh
  | tick g t t2 hle =>
      exact gossipInv_mono timeout t t2 g hinv hle

theorem gossip_reachable_inv (selfId : String) (timeout : Nat) (threshold : ℚ)
    (s : GossipState × Nat)
    (h : GossipReachable selfId timeout threshold s) :
    GossipInv timeout s.2 s.1 := by
  induction h with
  | refl =>
      intro p hp
      simp [GossipState.init] at hp
  | tail hsteps hstep ih =>
      exact gossipStep_inv selfId timeout threshold _ _ hstep ih

theorem check_unhealthy_count (timeout : Nat) (threshold : ℚ) (g : GossipState)
    (now : Nat) (hInv : GossipInv timeout now g) :
    ((check_peer_health timeout threshold g now).peers.filter
        (fun p => !p.2.is_healthy)).length
      = (g.peers.filter (fun p => staleAt timeout now p.2)).length := by
  unfold check_peer_health
  simp only [← List.countP_eq_length_filter, List.countP_map]
  apply List.countP_congr
  intro q hq
  obtain ⟨h1, h2⟩ := hInv q hq
  by_cases hstale : staleAt timeout now q.2 = true
  · simp [Function.comp, hstale]
  · have hb : staleAt timeout now q.2 = false := by simpa using hstale
    have hh : q.2.is_healthy = true := by
      by_contra hcon
      have := h2 (by simpa using hcon)
      rw [hb] at this
      exact Bool.false_ne_true this
    simp [Function.comp, hb, hh]

/-- C9: after a health-check pass over a non-empty peer map (in any state
the receiver task can reach, captured by `GossipInv`, which
`gossip_reachable_inv` establishes for all reachable states), every peer
whose `last_seen` is older than `peer_timeout_secs` is marked
`is_healthy = false`, and the `isolated` flag — hence `is_isolated()` —
equals the comparison `unhealthy / total ≥ isolation_threshold` over the
resulting map: marking enough peers unhealthy to reach the threshold makes
it true, and dropping below makes it false again. -/
theorem gossip_isolation (timeout : Nat) (threshold : ℚ) (g : GossipState)
    (now : Nat) (hInv : GossipInv timeout now g) (hne : g.peers ≠ []) :
    (∀ p ∈ (check_peer_health timeout threshold g now).peers,
        staleAt timeout now p.2 = true → p.2.is_healthy = false) ∧
    (check_peer_health timeout threshold g now).peers.length
        = g.peers.length ∧
    is_isolated (check_peer_health timeout threshold g now)
      = decide (threshold ≤
          ((((check_peer_health timeout threshold g now).peers.filter
              (fun p => !p.2.is_healthy)).length : ℚ)
            / (((check_peer_health timeout threshold g now).peers.length : ℚ)))) := by
  have hlen : (check_peer_health timeout threshold g now).peers.length
      = g.peers.length := by
    unfold check_peer_health
    simp
  refine ⟨?_, hlen, ?_⟩
  · intro p hp hstale
    unfold check_peer_health at hp
    simp only [List.mem_map] at hp
    obtain ⟨q, hq, rfl⟩ := hp
    by_cases hs : staleAt timeout now q.2 = true
    · have hs2 : timeout < now - q.2.last_seen := by simpa [staleAt] using hs
      simp [staleAt, hs2]
    · have hb : staleAt timeout now q.2 = false := by simpa using hs
      rw [hb] at hstale
      simp only [Bool.false_eq_true, if_false] at hstale
      rw [hb] at hstale
      exact absurd hstale Bool.false_ne_true
  · rw [check_unhealthy_count timeout threshold g now hInv, hlen]
    have h0 : 0 < g.peers.length := List.length_pos.mpr hne
    unfold is_isolated check_peer_health
    simp [h0]

/-- C9 witness: one peer last seen at instant 0 checked at instant 100 with
a 30 s timeout — it is marked unhealthy and, at threshold 1/2, the node
reports isolated. -/
theorem gossip_isolation_witness :
    GossipInv 30 100 sampleGossip ∧
    sampleGossip.peers ≠ [] ∧
    ((∀ p ∈ (check_peer_health 30 (1 / 2) sampleGossip 100).peers,
        staleAt 30 100 p.2 = true → p.2.is_healthy = false) ∧
    (check_peer_health 30 (1 / 2) sampleGossip 100).peers.length
        = sampleGossip.peers.length ∧
    is_isolated (check_peer_health 30 (1 / 2) sampleGossip 100)
      = decide ((1 / 2 : ℚ) ≤
          ((((check_peer_health 30 (1 / 2) sampleGossip 100).peers.filter
              (fun p => !p.2.is_healthy)).length : ℚ)
            / (((check_peer_health 30 (1 / 2) sampleGossip 100).peers.length
                : ℚ))))) :=
  ⟨by unfold GossipInv; decide, by decide,
   gossip_isolation 30 (1 / 2) sampleGossip 100 (by unfold GossipInv; decide)
     (by decide)⟩

/-- C2 counterexample: a cross-node token whose expiry equals the current
second is accepted — `validate` rejects only `expiry < now`, so "accept only
if expiry > now" is false at the boundary.  The token is exactly what the
issuer's `mint` produces (issuer `I`, key 7, TTL 1 s, minted at 4,
validated at 5). -/
theorem crossnode_expiry_boundary_cex :
    mint "I" 7 1 "N" 4 = "N:5:I:" ++ sigOf 7 "N:5:I" ∧
    validateToken "N" [("I", 7)] 5 (mint "I" 7 1 "N" 4)
      = some { target := "N", expiry := 5, issuer := "I", circuit_id := none } ∧
    ¬ 5 > 5 := by
  refine ⟨by decide, by decide, by omega⟩

/-- C2 amended: `PassportService::validate` accepts a cross-node token and
returns its `{target, expiry, issuer}` if and only if the (decoded) token
splits on `:` into exactly four parts `target:expiry:issuer:sig`, the
expiry parses, `target` equals the local node id, `expiry ≥ now` (the code
rejects only `expiry < now`, so the boundary second is accepted), the
issuer is in the peer-keys map, and `sig` is a valid Ed25519 signature by
the issuer over `"target:expiry:issuer"`; in every other case it rejects.
Stated as soundness (first conjunct) plus completeness (second). -/
theorem crossnode_validate_spec (nodeId : String)
    (peerKeys : List (String × Nat)) (now : Nat) (tokenStr : String)
    (r : PassportTokenData) :
    (validateToken nodeId peerKeys now tokenStr = some r →
      r.target = nodeId ∧ r.circuit_id = none ∧ now ≤ r.expiry ∧
      ∃ (expiryStr sigStr : String) (pk : Nat),
        splitColon tokenStr = [nodeId, expiryStr, r.issuer, sigStr] ∧
        parseNat? expiryStr = some r.expiry ∧
        lookupKV peerKeys r.issuer = some pk ∧
        sigVerify pk (nodeId ++ ":" ++ toString r.expiry ++ ":" ++ r.issuer)
          sigStr = true) ∧
    (∀ (expiryStr sigStr issuer : String) (expiry pk : Nat),
      splitColon tokenStr = [nodeId, expiryStr, issuer, sigStr] →
      parseNat? expiryStr = some expiry →
      now ≤ expiry →
      lookupKV peerKeys issuer = some pk →
      sigVerify pk (nodeId ++ ":" ++ toString expiry ++ ":" ++ issuer) sigStr
        = true →
      validateToken nodeId peerKeys now tokenStr
        = some { target := nodeId, expiry := expiry, issuer := issuer
                 circuit_id := none }) := by
  constructor
  · intro h
    unfold validateToken at h
    rcases hsp : splitColon tokenStr with _ | ⟨a, _ | ⟨b, _ | ⟨c, _ | ⟨d, _ | ⟨e, rest⟩⟩⟩⟩⟩
    · rw [hsp] at h
      exact absurd h (by simp)
    · rw [hsp] at h
      exact absurd h (by simp)
    · rw [hsp] at h
      exact absurd h (by simp)
    · rw [hsp] at h
      exact absurd h (by simp)
    · rw [hsp] at h
      have h4 : (match parseNat? b with
          | none => none
          | some expiry =>
              if a ≠ nodeId then none
              else if expiry < now then none
              else
                match lookupKV peerKeys c with
                | none => none
                | some pk =>
                    if sigVerify pk (a ++ ":" ++ toString expiry ++ ":" ++ c) d
                        = true then
                      some { target := a, expiry := expiry, issuer := c
                             circuit_id := none }
                    else none) = some r := h
      cases hexp : parseNat? b with
      | none =>
          rw [hexp] at h4
          exact absurd h4 (by simp)
      | some expiry =>
          rw [hexp] at h4
          have h4b : (if a ≠ nodeId then (none : Option PassportTokenData)
              else if expiry < now then none
              else
                match lookupKV peerKeys c with
                | none => none
                | some pk =>
                    if sigVerify pk (a ++ ":" ++ toString expiry ++ ":" ++ c) d
                        = true then
                      some { target := a, expiry := expiry, issuer := c
                             circuit_id := none }
                    else none) = some r := h4
          by_cases ha : a = nodeId
          · subst ha
            rw [if_neg (by simp)] at h4b
            by_cases hlt : expiry < now
            · rw [if_pos hlt] at h4b
              exact absurd h4b (by simp)
            · rw [if_neg hlt] at h4b
              cases hlk : lookupKV peerKeys c with
              | none =>
                  rw [hlk] at h4b
                  exact absurd h4b (by simp)
              | some pk =>
                  rw [hlk] at h4b
                  have h5 : (if sigVerify pk
                        (a ++ ":" ++ toString expiry ++ ":" ++ c) d = true then
                        some { target := a, expiry := expiry, issuer := c
                               circuit_id := none }
                      else (none : Option PassportTokenData)) = some r := h4b
                  by_cases hsig : sigVerify pk
                      (a ++ ":" ++ toString expiry ++ ":" ++ c) d = true
                  · rw [if_pos hsig] at h5
                    have hr : r = { target := a, expiry := expiry, issuer := c
                                    circuit_id := none } :=
                      (Option.some_inj.mp h5).symm
                    subst hr
                    exact ⟨rfl, rfl, Nat.le_of_not_lt hlt, b, d, pk, rfl, hexp,
                      hlk, hsig⟩
                  · rw [if_neg hsig] at h5
                    exact absurd h5 (by simp)
          · rw [if_pos (by simpa using ha)] at h4b
            exact absurd h4b (by simp)
    · rw [hsp] at h
      exact absurd h (by simp)
  · intro expiryStr sigStr issuer expiry pk h1 h2 h3 h4 h5
    unfold validateToken
    rw [h1]
    have h6 : ¬ expiry < now := by omega
    simp [h2, h4, h5, h6]
